import Mathlib

/-!
Verification development for the deployment fabfile of
django-webfaction-fabric-tools (src/fabfile.py).

Python strings are modelled as `List Char` (one entry per character);
remote file contents, template texts and requirements manifests are such
character lists.  Fallible operations return `Option`.  Remote state that
the tasks consult (existence of provider resources, of the virtualenv, of
marker files) is modelled by a record of booleans, and the externally
visible behaviour of a task is the sequence of remote-session commands and
provider API calls it issues, modelled as a list of events.
-/

namespace Fabfile

/-- Whitespace characters recognised by Python `str.strip` (ASCII range). -/
def pyIsSpace (c : Char) : Bool :=
  c = ' ' || c = '\t' || c = '\n' || c = '\r' || c = '\x0b' || c = '\x0c'

/-- Python `s.strip()` on a character list: drop leading and trailing
whitespace. -/
def pyStrip (s : List Char) : List Char :=
  ((s.dropWhile pyIsSpace).reverse.dropWhile pyIsSpace).reverse

/-- Split a character list at newline characters, mirroring Python
`s.split("\n")` (the empty string yields one empty field, and separators
at the ends yield empty fields). -/
def splitNl : List Char → List (List Char)
  | [] => [[]]
  | c :: rest =>
    if c = '\n' then [] :: splitNl rest
    else
      match splitNl rest with
      | [] => [[c]]
      | l :: ls => (c :: l) :: ls

/-- Python `req.startswith("-e")` for a requirement line. -/
def startsWithDashE : List Char → Bool
  | '-' :: 'e' :: _ => true
  | _ => false

/-- Python `req.startswith("#")` for a requirement line. -/
def startsWithHash : List Char → Bool
  | '#' :: _ => true
  | _ => false

/-- One requirement line hits the `break` in the loop of
`update_changed_requirements` (fabfile.py lines 193-201): either an
editable (`-e`) requirement without an `@`-pinned reference, or a
non-blank, non-comment requirement containing none of the version
comparison characters `>`, `=`, `<` (the Python test
`not set(">=<") & set(req)`). -/
def reqTriggersBreak (req : List Char) : Bool :=
  if startsWithDashE req then !(req.contains '@')
  else if req.any (fun c => !pyIsSpace c) && !startsWithHash req then
    !(req.contains '>' || req.contains '=' || req.contains '<')
  else false

/-- The manifest contains a line that forces reinstallation: the `for`
loop of `update_changed_requirements` runs over `new_reqs.split("\n")`
and `break`s (skipping the `else: return`) on the first such line. -/
def hasUnpinnedRequirement (reqs : List Char) : Bool :=
  (splitNl reqs).any reqTriggersBreak

/-- Outcome of one pass through the requirements guard: whether the
manifest was read before the inner action, whether it was re-read after
it, and whether `pip` was invoked on the manifest. -/
structure GuardResult where
  preRead : Bool
  postRead : Bool
  pipInvoked : Bool
deriving DecidableEq

/-- Python truthiness of `env.reqs_path` (fabfile.py line 187): `None`
and the empty string are falsy. -/
def pathConfigured : Option (List Char) → Bool
  | none => false
  | some p => !p.isEmpty

/-- Embedding of `update_changed_requirements` (fabfile.py lines
179-205).  `reqs_path` is `env.reqs_path`; `oldContent` is what
`cat` on the manifest would return before the wrapped action and
`newContent` what it would return after it.  `old_reqs` is the pre-action
content when a path is configured and `""` otherwise; the post-action
re-read and the whole decision run only `if old_reqs:` (non-empty), and
`pip` is invoked unless the manifest is unchanged and the line loop
finishes without a `break`. -/
def update_changed_requirements (reqs_path : Option (List Char))
    (oldContent newContent : List Char) : GuardResult :=
  let old_reqs := if pathConfigured reqs_path then oldContent else []
  if !old_reqs.isEmpty then
    let new_reqs := newContent
    if old_reqs = new_reqs then
      if hasUnpinnedRequirement new_reqs then
        ⟨pathConfigured reqs_path, true, true⟩
      else
        ⟨pathConfigured reqs_path, true, false⟩
    else ⟨pathConfigured reqs_path, true, true⟩
  else ⟨pathConfigured reqs_path, false, false⟩

/-- The claim wording of a pinned line: an editable requirement carries a
fixed `@` reference, and every other non-blank line carries at least one
version comparison character among `>`, `=`, `<`. -/
def linePinnedSpec (req : List Char) : Bool :=
  if startsWithDashE req then req.contains '@'
  else if req.any (fun c => !pyIsSpace c) then
    req.contains '>' || req.contains '=' || req.contains '<'
  else true

/-- Every line of the manifest is pinned in the sense of the claim. -/
def allPinnedSpec (reqs : List Char) : Bool :=
  (splitNl reqs).all linePinnedSpec

theorem allPinnedSpec_no_unpinned (reqs : List Char)
    (h : allPinnedSpec reqs = true) : hasUnpinnedRequirement reqs = false := by
  unfold allPinnedSpec at h
  unfold hasUnpinnedRequirement
  rw [List.all_eq_true] at h
  rw [List.any_eq_false]
  intro req hreq
  have hp := h req hreq
  unfold linePinnedSpec at hp
  unfold reqTriggersBreak
  by_cases he : startsWithDashE req = true
  · simp [he] at hp ⊢
    exact hp
  · by_cases hb : req.any (fun c => !pyIsSpace c) = true
    · by_cases hh : startsWithHash req = true
      · simp [he, hb, hh]
      · simp [he, hb, hh] at hp ⊢
        tauto
    · simp [he, hb]

theorem hasUnpinned_nil : hasUnpinnedRequirement [] = false := by decide

/-- C1 counterexample: with a requirements path configured, an empty
pre-action manifest and a changed, non-empty post-action manifest, the
guard invokes no reinstall, although the claim demands one whenever the
manifest changed. -/
theorem c1_counterexample :
    pathConfigured (some ("requirements/project.txt").data) = true ∧
    ([] : List Char) ≠ ("Django==1.8").data ∧
    (update_changed_requirements (some ("requirements/project.txt").data)
      [] ("Django==1.8").data).pipInvoked = false := by
  decide

/-- C1 (amended): for the requirements guard with a configured
(truthy) requirements path, (1) an unchanged manifest all of whose lines
are pinned yields no reinstall; (2) an unchanged manifest with a line
that is an unpinned plain requirement or an editable line without `@`
yields a reinstall; (3) a changed manifest yields a reinstall provided
the pre-action content was non-empty; and (4) with no requirements path
configured the guard performs no reads and invokes no reinstall. -/
theorem c1_requirements_guard (rp : List Char) (oldC newC : List Char)
    (hcfg : pathConfigured (some rp) = true) :
    (oldC = newC → allPinnedSpec newC = true →
      (update_changed_requirements (some rp) oldC newC).pipInvoked = false) ∧
    (oldC = newC → hasUnpinnedRequirement newC = true →
      (update_changed_requirements (some rp) oldC newC).pipInvoked = true) ∧
    (oldC ≠ [] → oldC ≠ newC →
      (update_changed_requirements (some rp) oldC newC).pipInvoked = true) ∧
    (∀ o n : List Char,
      update_changed_requirements none o n = ⟨false, false, false⟩) := by
  refine ⟨?_, ?_, ?_, ?_⟩
  · intro he hp
    subst he
    have hu := allPinnedSpec_no_unpinned _ hp
    unfold update_changed_requirements
    by_cases hemp : oldC.isEmpty <;> simp [hcfg, hemp, hu]
  · intro he hu
    subst he
    have hne : ¬ oldC.isEmpty := by
      intro hemp
      rw [List.isEmpty_iff] at hemp
      subst hemp
      rw [hasUnpinned_nil] at hu
      exact Bool.false_ne_true hu
    unfold update_changed_requirements
    simp [hcfg, hne, hu]
  · intro hne hneq
    have hne2 : ¬ oldC.isEmpty := by
      intro hemp
      rw [List.isEmpty_iff] at hemp
      exact hne hemp
    unfold update_changed_requirements
    simp [hcfg, hne2, hneq]
  · intro o n
    unfold update_changed_requirements
    simp [pathConfigured]

/-- Witness for the amended C1 theorem: an unchanged, fully pinned
manifest produces no reinstall. -/
theorem c1_requirements_guard_witness :
    (update_changed_requirements (some ("requirements/project.txt").data)
      ("Django==1.8\n").data ("Django==1.8\n").data).pipInvoked = false :=
  (c1_requirements_guard ("requirements/project.txt").data
    ("Django==1.8\n").data ("Django==1.8\n").data (by decide)).1 rfl (by decide)

/-- C9: whenever the pre-action manifest content is empty, in particular
when a requirements path is configured but the remote manifest file is
empty, the guard performs no post-action re-read and never invokes
reinstallation, whatever the post-action content is. -/
theorem c9_empty_snapshot_skips_guard (rp : Option (List Char))
    (newC : List Char) :
    (update_changed_requirements rp [] newC).postRead = false ∧
    (update_changed_requirements rp [] newC).pipInvoked = false := by
  unfold update_changed_requirements
  cases rp with
  | none => simp [pathConfigured]
  | some p => by_cases hp : pathConfigured (some p) = true <;> simp [hp]

/-- Witness for C9: a configured path, an empty pre-action manifest and a
non-empty post-action manifest still produce no re-read and no pip. -/
theorem c9_empty_snapshot_skips_guard_witness :
    (update_changed_requirements (some ("requirements/project.txt").data)
      [] ("Django==1.8").data).postRead = false ∧
    (update_changed_requirements (some ("requirements/project.txt").data)
      [] ("Django==1.8").data).pipInvoked = false :=
  c9_empty_snapshot_skips_guard (some ("requirements/project.txt").data)
    ("Django==1.8").data

/-- Word character for the regex class `\w` (ASCII letters, digits and
underscore), as used by the escaping pattern on fabfile.py line 273. -/
def isWordChar (c : Char) : Bool := c.isAlphanum || c = '_'

/-- Does the text right after a `%` match the lookahead `\(\w+\)s` of the
escaping regex `%(?!\(\w+\)s)` in `upload_template_and_reload`
(fabfile.py line 273)? -/
def placeholderAhead (cs : List Char) : Bool :=
  match cs with
  | '(' :: rest =>
    !(rest.takeWhile isWordChar).isEmpty &&
      (match rest.dropWhile isWordChar with
       | ')' :: 's' :: _ => true
       | _ => false)
  | _ => false

/-- The escaping step `re.sub(r"%(?!\(\w+\)s)", "%%", local_data)` of
`upload_template_and_reload` (fabfile.py line 273): every `%` that is not
immediately followed by a `(name)s` placeholder is doubled. -/
def escapePercents : List Char → List Char
  | [] => []
  | c :: rest =>
    if c = '%' then
      if placeholderAhead rest then '%' :: escapePercents rest
      else '%' :: '%' :: escapePercents rest
    else c :: escapePercents rest

/-- Parsing state of the percent interpolation scanner: outside any
directive, right after a `%`, inside the parenthesised key (characters
collected so far, reversed), or right after the closing parenthesis
awaiting the conversion character. -/
inductive FmtState where
  | normal
  | afterPercent
  | key (acc : List Char)
  | conv (name : List Char)

/-- Scanner for Python percent formatting `text % mapping`, restricted to
the directives the fabfile produces after escaping: `%%` (a literal
percent) and `%(key)s` (string substitution, where the key contains no
parenthesis).  Any other use of `%` is a formatting error, as is a key
absent from the mapping; both are modelled as `none`, matching the
ValueError/KeyError that aborts the task. -/
def pyFormatAux (cfg : String → Option (List Char)) :
    FmtState → List Char → Option (List Char)
  | .normal, [] => some []
  | .normal, c :: rest =>
    if c = '%' then pyFormatAux cfg .afterPercent rest
    else (pyFormatAux cfg .normal rest).map (fun t => c :: t)
  | .afterPercent, [] => none
  | .afterPercent, c :: rest =>
    if c = '%' then (pyFormatAux cfg .normal rest).map (fun t => '%' :: t)
    else if c = '(' then pyFormatAux cfg (.key []) rest
    else none
  | .key _, [] => none
  | .key acc, c :: rest =>
    if c = ')' then pyFormatAux cfg (.conv acc.reverse) rest
    else pyFormatAux cfg (.key (c :: acc)) rest
  | .conv _, [] => none
  | .conv name, c :: rest =>
    if c = 's' then
      match cfg (String.mk name) with
      | some v => (pyFormatAux cfg .normal rest).map (fun t => v ++ t)
      | none => none
    else none

/-- Python `text % cfg` on a whole text, starting outside any directive. -/
def pyFormat (cfg : String → Option (List Char)) (s : List Char) :
    Option (List Char) :=
  pyFormatAux cfg .normal s

/-- The substitution pipeline of `upload_template_and_reload`
(fabfile.py lines 272-276): escape stray percents, then interpolate the
configuration mapping (`local_data %= env`). -/
def renderTemplate (cfg : String → Option (List Char)) (s : List Char) :
    Option (List Char) :=
  pyFormat cfg (escapePercents s)

/-- Every `%` of the text is a literal one, i.e. not immediately followed
by a `(name)s` placeholder. -/
def allPercentsLiteral : List Char → Bool
  | [] => true
  | c :: rest =>
    if c = '%' then !placeholderAhead rest && allPercentsLiteral rest
    else allPercentsLiteral rest

theorem render_literal (cfg : String → Option (List Char)) :
    ∀ s : List Char, allPercentsLiteral s = true →
      renderTemplate cfg s = some s := by
  intro s
  induction s with
  | nil => intro _; rfl
  | cons c rest ih =>
    intro h
    by_cases hc : c = '%'
    · subst hc
      unfold allPercentsLiteral at h
      simp at h
      obtain ⟨hpa, hrest⟩ := h
      have ihr := ih hrest
      unfold renderTemplate at ihr ⊢
      unfold escapePercents
      simp [hpa]
      unfold pyFormat at ihr ⊢
      unfold pyFormatAux
      simp
      unfold pyFormatAux
      simp [ihr]
    · unfold allPercentsLiteral at h
      simp [hc] at h
      have ihr := ih h
      unfold renderTemplate at ihr ⊢
      unfold escapePercents
      simp [hc]
      unfold pyFormat at ihr ⊢
      unfold pyFormatAux
      simp [hc, ihr]

/-- The configuration mapping of the C2 example: `user` is `bob`. -/
def userBobConfig : String → Option (List Char) :=
  fun n => if n = "user" then some ("bob").data else none

/-- A configuration mapping with no keys at all. -/
def emptyConfig : String → Option (List Char) := fun _ => none

/-- C2: the substitution step escapes every `%` not immediately followed
by a `(name)s` placeholder before interpolating, so a text all of whose
percents are literal renders to itself under every configuration; and the
template `100% done (%(user)s)` with `user=bob` renders to
`100% done (bob)`. -/
theorem c2_percent_escaping (cfg : String → Option (List Char))
    (s : List Char) (h : allPercentsLiteral s = true) :
    renderTemplate cfg s = some s ∧
    renderTemplate userBobConfig ("100% done (%(user)s)").data =
      some ("100% done (bob)").data := by
  refine ⟨render_literal cfg s h, ?_⟩
  decide

/-- Witness for C2 at a concrete literal-percent template. -/
theorem c2_percent_escaping_witness :
    renderTemplate userBobConfig ("100% done").data =
      some ("100% done").data ∧
    renderTemplate userBobConfig ("100% done (%(user)s)").data =
      some ("100% done (bob)").data :=
  c2_percent_escaping userBobConfig ("100% done").data (by decide)

/-- Removal of every line break character, i.e. the Python
`s.replace("\n", "").replace("\r", "")` part of the `clean` lambda
(fabfile.py line 277). -/
def stripLineBreaks (s : List Char) : List Char :=
  s.filter (fun c => !(c = '\n' || c = '\r'))

/-- The `clean` lambda of `upload_template_and_reload` (fabfile.py line
277): remove every line break character, then strip surrounding
whitespace. -/
def clean (s : List Char) : List Char := pyStrip (stripLineBreaks s)

/-- Outcome of one call to the template upload: whether an upload was
performed, whether the reload command was run, and the remote file
content afterwards (`none` when the file still does not exist). -/
structure UploadResult where
  uploaded : Bool
  reloadRun : Bool
  remoteAfter : Option (List Char)
deriving DecidableEq

/-- Embedding of `upload_template_and_reload` (fabfile.py lines 254-282)
for one descriptor.  `raw` is the local template file content,
`hasReloadCommand` tells whether the descriptor names a reload command,
and `remote` is the remote destination file (`none` when absent, in which
case `remote_data` is the empty string).  The local content is escaped
and interpolated (a missing key aborts the task, modelled as `none`; the
interactive database password prompt of lines 274-275 only fills the
mapping and is not modelled).  When the cleaned contents agree the
function returns before uploading; otherwise the rendered content is
uploaded by the external transport and the reload command, if any, is
run. -/
def upload_template_and_reload (raw : List Char) (hasReloadCommand : Bool)
    (cfg : String → Option (List Char)) (remote : Option (List Char)) :
    Option UploadResult :=
  let remote_data := remote.getD []
  match renderTemplate cfg raw with
  | none => none
  | some local_data =>
    if clean remote_data = clean local_data then
      some ⟨false, false, remote⟩
    else
      some ⟨true, hasReloadCommand, some local_data⟩

/-- C3: the upload decision compares the cleaned (line-break-free,
whitespace-stripped) contents; equality yields no upload and no reload,
inequality yields an upload of the rendered content followed by the
reload command exactly when the descriptor names one; and a remote copy
differing from the rendering only by trailing whitespace and line-ending
style compares as equal and triggers no upload. -/
theorem c3_change_detection (raw : List Char) (hasReloadCommand : Bool)
    (cfg : String → Option (List Char)) (remote : Option (List Char))
    (ld : List Char) (h : renderTemplate cfg raw = some ld) :
    (clean (remote.getD []) = clean ld →
      upload_template_and_reload raw hasReloadCommand cfg remote =
        some ⟨false, false, remote⟩) ∧
    (clean (remote.getD []) ≠ clean ld →
      upload_template_and_reload raw hasReloadCommand cfg remote =
        some ⟨true, hasReloadCommand, some ld⟩) ∧
    upload_template_and_reload ("alpha = 1\n").data true emptyConfig
        (some ("alpha = 1 \r\n").data) =
      some ⟨false, false, some ("alpha = 1 \r\n").data⟩ := by
  refine ⟨?_, ?_, by decide⟩
  · intro heq
    unfold upload_template_and_reload
    rw [h]
    simp [heq]
  · intro hne
    unfold upload_template_and_reload
    rw [h]
    simp [hne]

/-- Witness for C3: a fresh remote host (file absent) receives the upload
and, the descriptor naming no reload command, no reload is run. -/
theorem c3_change_detection_witness :
    upload_template_and_reload ("workers = 3").data false emptyConfig none =
      some ⟨true, false, some ("workers = 3").data⟩ :=
  (c3_change_detection ("workers = 3").data false emptyConfig none
    ("workers = 3").data (by decide)).2.1 (by decide)

/-- C4: running the template upload twice with the same local template
and configuration, the second run against whatever remote content the
first run left, performs no upload and runs no reload command on the
second run. -/
theorem c4_second_run_silent (raw : List Char) (hasReloadCommand : Bool)
    (cfg : String → Option (List Char)) (remote : Option (List Char))
    (ld : List Char) (h : renderTemplate cfg raw = some ld) :
    ∃ r1 : UploadResult,
      upload_template_and_reload raw hasReloadCommand cfg remote = some r1 ∧
      upload_template_and_reload raw hasReloadCommand cfg r1.remoteAfter =
        some ⟨false, false, r1.remoteAfter⟩ := by
  unfold upload_template_and_reload
  rw [h]
  by_cases heq : clean (remote.getD []) = clean ld
  · exact ⟨⟨false, false, remote⟩, by simp [heq], by simp [heq]⟩
  · exact ⟨⟨true, hasReloadCommand, some ld⟩, by simp [heq], by simp⟩

/-- Witness for C4: after an initial upload onto an absent remote file,
the immediate re-run uploads nothing and reloads nothing. -/
theorem c4_second_run_silent_witness :
    ∃ r1 : UploadResult,
      upload_template_and_reload ("workers = 4").data true emptyConfig
        none = some r1 ∧
      upload_template_and_reload ("workers = 4").data true emptyConfig
        r1.remoteAfter = some ⟨false, false, r1.remoteAfter⟩ :=
  c4_second_run_silent ("workers = 4").data true emptyConfig none
    ("workers = 4").data (by decide)

/-- C8: the normalisation removes every line break character anywhere in
the content, so a rendering and a remote copy whose line-break-free
character sequences agree compare as equal and trigger neither upload nor
reload, even when the raw contents genuinely differ, as the pair
`ab\ncd` versus `a\nbcd` shows. -/
theorem c8_linebreaks_removed_everywhere (raw : List Char)
    (hasReloadCommand : Bool) (cfg : String → Option (List Char))
    (remote : Option (List Char)) (ld : List Char)
    (h : renderTemplate cfg raw = some ld)
    (hsame : stripLineBreaks (remote.getD []) = stripLineBreaks ld) :
    upload_template_and_reload raw hasReloadCommand cfg remote =
      some ⟨false, false, remote⟩ ∧
    (upload_template_and_reload ("ab\ncd").data true emptyConfig
        (some ("a\nbcd").data) =
      some ⟨false, false, some ("a\nbcd").data⟩ ∧
     ("ab\ncd").data ≠ ("a\nbcd").data) := by
  refine ⟨?_, by decide⟩
  unfold upload_template_and_reload
  rw [h]
  have hcl : clean (remote.getD []) = clean ld := by
    unfold clean
    rw [hsame]
  simp [hcl]

/-- Witness for C8: differently placed line breaks around identical
characters yield no upload. -/
theorem c8_linebreaks_removed_everywhere_witness :
    upload_template_and_reload ("ab\ncd").data true emptyConfig
        (some ("a\nbcd").data) =
      some ⟨false, false, some ("a\nbcd").data⟩ :=
  (c8_linebreaks_removed_everywhere ("ab\ncd").data true emptyConfig
    (some ("a\nbcd").data) ("ab\ncd").data (by decide) (by decide)).1

/-- Resource kinds of the Webfaction provisioning client, as used through
`get_webf_obj` and the `create_XXX` and `delete_XXX` wrappers. -/
inductive RKind where
  | app
  | db
  | dbUser
  | domain
  | website
deriving DecidableEq

/-- Symbolic resource names the fabfile uses: the project name
(`env.proj_name`), the static app name (`"%s_static" % env.proj_name`)
and the live domain with its subdomain
(`env.live_domain`, `env.live_subdomain`). -/
inductive RName where
  | proj
  | projStatic
  | liveHost
deriving DecidableEq

/-- The configured deploy tool (`env.deploy_tool`): `git`, `hg`, or the
rsync default. -/
inductive DeployTool where
  | git
  | hg
  | rsync
deriving DecidableEq

/-- Externally visible steps of a task: a remote shell command, a
provisioning-client existence query (`get_webf_obj`), a create call, a
delete call (`del_webf_obj`), or an `abort`. -/
inductive Ev where
  | run (cmd : String)
  | find (k : RKind) (n : RName)
  | create (k : RKind) (n : RName)
  | delete (k : RKind) (n : RName)
  | aborted
deriving DecidableEq

/-- Is this event a provisioning-client create call? -/
def Ev.isCreate : Ev → Bool
  | .create _ _ => true
  | _ => false

/-- Simulated remote state consulted by the tasks: which provider
resources a fresh `find` would report, what the remote filesystem holds,
the interactive answer to the virtualenv-replacement prompt, and the
relevant configuration switches. -/
structure SimState where
  venvExists : Bool
  confirmReplaceVenv : Bool
  dbUserExists : Bool
  dbExists : Bool
  appExists : Bool
  staticAppExists : Bool
  domainExists : Bool
  websiteExists : Bool
  deployTool : DeployTool
  reqsConfigured : Bool
  adminPassSet : Bool
  twitterCronConfigured : Bool
  repoExists : Bool
  supervisorConfExists : Bool
  gunicornConfExists : Bool
  settingsFileExists : Bool
  pidFileExists : Bool
deriving DecidableEq

/-- Steps of `vcs_upload` and `rsync_upload` (fabfile.py lines 285-323):
git pushes into a bare repository created on demand, mercurial aborts as
unsupported, rsync synchronises the project tree. -/
def uploadProjectEvents (st : SimState) : List Ev :=
  match st.deployTool with
  | .git =>
    (if st.repoExists then [] else
      [Ev.run "mkdir -p repo_path", Ev.run "git init --bare"]) ++
    [Ev.run "git push -f master", Ev.run "git checkout -f master",
     Ev.run "git reset --hard"]
  | .hg => [Ev.aborted]
  | .rsync => [Ev.run "rsync project files"]

/-- Tail of `create` after the website record is made (fabfile.py lines
505-538): project upload, settings template upload, requirement and
package installation, database bootstrap, site record, optional admin
user.  An `hg` deploy tool aborts inside the upload and nothing later
runs. -/
def createSetupEvents (st : SimState) : List Ev :=
  uploadProjectEvents st ++
  (if st.deployTool = DeployTool.hg then [] else
    [Ev.run "upload settings template"] ++
    (if st.reqsConfigured then [Ev.run "pip install -r requirements"]
     else []) ++
    [Ev.run "pip install gunicorn setproctitle psycopg2 django-compressor python-memcached",
     Ev.run "manage createdb", Ev.run "set site domain"] ++
    (if st.adminPassSet then [Ev.run "create admin user"] else []))

/-- Trace of the `create` task (fabfile.py lines 440-540).  The
virtualenv step replaces an existing virtualenv only after interactive
confirmation and aborts otherwise; every provisioning-client creation is
preceded by a `find` existence check whose positive answer aborts the
whole task, in source order: database user, database, main app, static
app, domain, website. -/
def createEvents (st : SimState) : List Ev :=
  [Ev.run "mkdir -p venv_home"] ++
  (if st.venvExists && !st.confirmReplaceVenv then [Ev.aborted] else
    (if st.venvExists then [Ev.run "rm -rf venv"] else []) ++
    [Ev.run "virtualenv", Ev.run "touch sitecustomize.py",
     Ev.find RKind.dbUser RName.proj] ++
    (if st.dbUserExists then [Ev.aborted] else
      [Ev.find RKind.db RName.proj] ++
      (if st.dbExists then [Ev.aborted] else
        [Ev.create RKind.db RName.proj, Ev.find RKind.app RName.proj] ++
        (if st.appExists then [Ev.aborted] else
          [Ev.create RKind.app RName.proj,
           Ev.find RKind.app RName.projStatic] ++
          (if st.staticAppExists then [Ev.aborted] else
            [Ev.create RKind.app RName.projStatic,
             Ev.find RKind.domain RName.liveHost] ++
            (if st.domainExists then [Ev.aborted] else
              [Ev.create RKind.domain RName.liveHost,
               Ev.find RKind.website RName.proj] ++
              (if st.websiteExists then [Ev.aborted] else
                [Ev.create RKind.website RName.proj] ++
                createSetupEvents st)))))))

/-- C5: if a fresh `find` for the database with the project name would
report a match, the `create` task aborts before issuing any
provisioning-client create call; moreover each create call is guarded by
the preceding existence check (it is only ever issued when the check for
that resource reports no match), and a pre-existing virtualenv with a
confirmed replacement is removed and replaced instead of aborting. -/
theorem c5_provisioning_fail_fast (st : SimState) (h : st.dbExists = true) :
    (∀ e ∈ createEvents st, e.isCreate = false) ∧
    Ev.aborted ∈ createEvents st ∧
    (∀ s2 : SimState, Ev.create RKind.db RName.proj ∈ createEvents s2 →
      s2.dbExists = false) ∧
    (∀ s2 : SimState, Ev.create RKind.app RName.proj ∈ createEvents s2 →
      s2.appExists = false) ∧
    (∀ s2 : SimState,
      Ev.create RKind.app RName.projStatic ∈ createEvents s2 →
      s2.staticAppExists = false) ∧
    (∀ s2 : SimState,
      Ev.create RKind.domain RName.liveHost ∈ createEvents s2 →
      s2.domainExists = false) ∧
    (∀ s2 : SimState,
      Ev.create RKind.website RName.proj ∈ createEvents s2 →
      s2.websiteExists = false) ∧
    (∀ s2 : SimState, s2.venvExists = true → s2.confirmReplaceVenv = true →
      Ev.run "rm -rf venv" ∈ createEvents s2) := by
  refine ⟨?_, ?_, ?_, ?_, ?_, ?_, ?_, ?_⟩
  · have hall : (createEvents st).all (fun e => !e.isCreate) = true := by
      unfold createEvents
      split_ifs <;> simp_all [Ev.isCreate]
    intro e he
    have hne := List.all_eq_true.mp hall e he
    simpa using hne
  · unfold createEvents
    split_ifs <;> simp_all
  · intro s2 hmem
    by_cases hdb : s2.dbExists = true
    · exfalso
      unfold createEvents at hmem
      simp only [hdb] at hmem
      split_ifs at hmem <;> simp_all
    · simpa using hdb
  · intro s2 hmem
    by_cases hx : s2.appExists = true
    · exfalso
      unfold createEvents at hmem
      simp only [hx] at hmem
      split_ifs at hmem <;> simp_all
    · simpa using hx
  · intro s2 hmem
    by_cases hx : s2.staticAppExists = true
    · exfalso
      unfold createEvents at hmem
      simp only [hx] at hmem
      split_ifs at hmem <;> simp_all
    · simpa using hx
  · intro s2 hmem
    by_cases hx : s2.domainExists = true
    · exfalso
      unfold createEvents at hmem
      simp only [hx] at hmem
      split_ifs at hmem <;> simp_all
    · simpa using hx
  · intro s2 hmem
    by_cases hx : s2.websiteExists = true
    · exfalso
      unfold createEvents at hmem
      simp only [hx] at hmem
      split_ifs at hmem <;> simp_all
    · simpa using hx
  · intro s2 hv hc
    unfold createEvents
    simp [hv, hc]

/-- A simulated state in which only the database already exists and
nothing else is present or configured. -/
def dbOnlyState : SimState :=
  ⟨false, false, false, true, false, false, false, false, DeployTool.rsync,
   false, false, false, false, false, false, false, false⟩

/-- Witness for C5: with a pre-existing database, `create` aborts and
issues no provisioning-client create call. -/
theorem c5_provisioning_fail_fast_witness :
    Ev.aborted ∈ createEvents dbOnlyState ∧
    (∀ e ∈ createEvents dbOnlyState, e.isCreate = false) :=
  ⟨(c5_provisioning_fail_fast dbOnlyState rfl).2.1,
   (c5_provisioning_fail_fast dbOnlyState rfl).1⟩

/-- Embedding of `restart` (fabfile.py lines 593-604): when the process
id marker `gunicorn.pid` exists under the project path, issue the
targeted restart of this project's worker group, otherwise issue the
full supervisor configuration reload. -/
def restartCommands (proj_name : String) (st : SimState) : List String :=
  if st.pidFileExists then
    ["supervisorctl restart gunicorn_" ++ proj_name]
  else
    ["supervisorctl update"]

/-- C6: `restart` issues exactly one command, and which one is decided by
the presence of the remote process id marker: the targeted worker-group
restart when it exists, the full supervisor reload when it does not. -/
theorem c6_restart_branching (proj_name : String) (st : SimState) :
    (restartCommands proj_name st).length = 1 ∧
    (st.pidFileExists = true →
      restartCommands proj_name st =
        ["supervisorctl restart gunicorn_" ++ proj_name]) ∧
    (st.pidFileExists = false →
      restartCommands proj_name st = ["supervisorctl update"]) := by
  unfold restartCommands
  by_cases hp : st.pidFileExists = true <;> simp [hp]

/-- Witness for C6: with no marker file, restart issues the full
supervisor reload. -/
theorem c6_restart_branching_witness :
    restartCommands "richardjackson" dbOnlyState =
      ["supervisorctl update"] :=
  (c6_restart_branching "richardjackson" dbOnlyState).2.2 rfl

/-- One resource teardown step of `remove` (fabfile.py lines 553-570):
a fresh existence query, followed by a delete call exactly when the
query reported a match. -/
def removeSegment (found : Bool) (k : RKind) (n : RName) : List Ev :=
  Ev.find k n :: (if found then [Ev.delete k n] else [])

/-- Trace of the `remove` task (fabfile.py lines 543-586): find/delete
pairs for website, domain, main app, static app, database and database
user in source order, then the optional twitter cron job removal, the
file and directory removals guarded by existence checks, and the final
supervisor update. -/
def removeEvents (st : SimState) : List Ev :=
  removeSegment st.websiteExists RKind.website RName.proj ++
  removeSegment st.domainExists RKind.domain RName.liveHost ++
  removeSegment st.appExists RKind.app RName.proj ++
  removeSegment st.staticAppExists RKind.app RName.projStatic ++
  removeSegment st.dbExists RKind.db RName.proj ++
  removeSegment st.dbUserExists RKind.dbUser RName.proj ++
  (if st.twitterCronConfigured then [Ev.run "delete poll_twitter cronjob"]
   else []) ++
  (if st.venvExists then [Ev.run "rm -rf venv_path"] else []) ++
  (if st.repoExists then [Ev.run "rm -rf repo_path"] else []) ++
  (if st.supervisorConfExists then [Ev.run "rm supervisor conf"] else []) ++
  (if st.gunicornConfExists then [Ev.run "rm gunicorn conf"] else []) ++
  (if st.settingsFileExists then [Ev.run "rm local settings"] else []) ++
  [Ev.run "supervisorctl update"]

theorem mem_if_nil {α : Type} {c : Bool} {a : α} {l : List α} :
    (a ∈ if c = true then l else []) ↔ (c = true ∧ a ∈ l) := by
  cases c <;> simp

/-- C10: `remove` issues a delete call for each of the six provider
resource kinds exactly when the fresh find for that resource reports a
match, never aborts (absent resources are silently skipped), and a found
website is deleted immediately after its find at the head of the
trace. -/
theorem c10_remove_guarded (st : SimState) :
    ((Ev.delete RKind.website RName.proj ∈ removeEvents st) ↔
      st.websiteExists = true) ∧
    ((Ev.delete RKind.domain RName.liveHost ∈ removeEvents st) ↔
      st.domainExists = true) ∧
    ((Ev.delete RKind.app RName.proj ∈ removeEvents st) ↔
      st.appExists = true) ∧
    ((Ev.delete RKind.app RName.projStatic ∈ removeEvents st) ↔
      st.staticAppExists = true) ∧
    ((Ev.delete RKind.db RName.proj ∈ removeEvents st) ↔
      st.dbExists = true) ∧
    ((Ev.delete RKind.dbUser RName.proj ∈ removeEvents st) ↔
      st.dbUserExists = true) ∧
    Ev.aborted ∉ removeEvents st ∧
    (st.websiteExists = true →
      ∃ r, removeEvents st =
        [Ev.find RKind.website RName.proj,
         Ev.delete RKind.website RName.proj] ++ r) := by
  refine ⟨?_, ?_, ?_, ?_, ?_, ?_, ?_, ?_⟩
  · simp [removeEvents, removeSegment, mem_if_nil]
  · simp [removeEvents, removeSegment, mem_if_nil]
  · simp [removeEvents, removeSegment, mem_if_nil]
  · simp [removeEvents, removeSegment, mem_if_nil]
  · simp [removeEvents, removeSegment, mem_if_nil]
  · simp [removeEvents, removeSegment, mem_if_nil]
  · simp [removeEvents, removeSegment, mem_if_nil]
  · intro h
    refine ⟨removeSegment st.domainExists RKind.domain RName.liveHost ++
      removeSegment st.appExists RKind.app RName.proj ++
      removeSegment st.staticAppExists RKind.app RName.projStatic ++
      removeSegment st.dbExists RKind.db RName.proj ++
      removeSegment st.dbUserExists RKind.dbUser RName.proj ++
      (if st.twitterCronConfigured then
        [Ev.run "delete poll_twitter cronjob"] else []) ++
      (if st.venvExists then [Ev.run "rm -rf venv_path"] else []) ++
      (if st.repoExists then [Ev.run "rm -rf repo_path"] else []) ++
      (if st.supervisorConfExists then [Ev.run "rm supervisor conf"]
       else []) ++
      (if st.gunicornConfExists then [Ev.run "rm gunicorn conf"]
       else []) ++
      (if st.settingsFileExists then [Ev.run "rm local settings"]
       else []) ++
      [Ev.run "supervisorctl update"], ?_⟩
    simp [removeEvents, removeSegment, h]

/-- Witness for C10: with only the database present, its delete call is
issued and the teardown never aborts. -/
theorem c10_remove_guarded_witness :
    Ev.delete RKind.db RName.proj ∈ removeEvents dbOnlyState ∧
    Ev.aborted ∉ removeEvents dbOnlyState :=
  ⟨(c10_remove_guarded dbOnlyState).2.2.2.2.1.mpr rfl,
   (c10_remove_guarded dbOnlyState).2.2.2.2.2.2.1⟩

/-- Outcome of the module-level host configuration check. -/
inductive StartupOutcome where
  | proceed (hosts : List String)
  | abortMessage
  | abortUncaught
deriving DecidableEq

/-- The startup host check of the fabfile (fabfile.py lines 28-39), run
when the script is invoked through `fab`.  The argument describes the
settings source: `none` models a failing settings import or a missing
`FABRIC` attribute (ImportError/AttributeError, caught, so the
process prints the no-hosts message and exits); `some none` models a
`FABRIC` mapping without a `HOSTS` key (`conf["HOSTS"]` raises KeyError,
re-raised as ImportError, caught, same message and exit); and
`some (some hosts)` models a `HOSTS` list.  On an empty list
`conf["HOSTS"][0]` raises IndexError, which neither
`except (KeyError, ValueError)` nor `except (ImportError,
AttributeError)` catches, so the process dies from the uncaught
exception without printing the message. -/
def confStartup (fabricHosts : Option (Option (List String))) :
    StartupOutcome :=
  match fabricHosts with
  | none => StartupOutcome.abortMessage
  | some none => StartupOutcome.abortMessage
  | some (some hosts) =>
    if hosts.isEmpty then StartupOutcome.abortUncaught
    else StartupOutcome.proceed hosts

/-- C7 counterexample: an empty host list does not abort with the
no-hosts message; it dies from an uncaught IndexError instead. -/
theorem c7_counterexample :
    confStartup (some (some [])) = StartupOutcome.abortUncaught ∧
    StartupOutcome.abortUncaught ≠ StartupOutcome.abortMessage := by
  decide

/-- C7 (amended): a missing settings module, a missing `FABRIC`
attribute or a missing `HOSTS` key aborts the process at startup with
the no-hosts message; an empty host list also aborts at startup, but
through an uncaught error and without the message; in every case a task
can only run when the startup check proceeded, which happens exactly for
a non-empty host list. -/
theorem c7_host_check :
    (∀ (fh : Option (Option (List String))) (hosts : List String),
      confStartup fh = StartupOutcome.proceed hosts → hosts ≠ []) ∧
    confStartup none = StartupOutcome.abortMessage ∧
    confStartup (some none) = StartupOutcome.abortMessage ∧
    (∀ hosts : List String, hosts ≠ [] →
      confStartup (some (some hosts)) = StartupOutcome.proceed hosts) ∧
    confStartup (some (some [])) = StartupOutcome.abortUncaught := by
  refine ⟨?_, rfl, rfl, ?_, rfl⟩
  · intro fh hosts hp
    match fh with
    | none => exact absurd hp (by simp [confStartup])
    | some none => exact absurd hp (by simp [confStartup])
    | some (some l) =>
      intro hnil
      subst hnil
      unfold confStartup at hp
      by_cases hl : l.isEmpty = true
      · simp [hl] at hp
      · simp [hl] at hp
        subst hp
        simp at hl
  · intro hosts hne
    unfold confStartup
    simp [List.isEmpty_iff, hne]

/-- Witness for the amended C7 theorem: a run that proceeded did so with
a non-empty host list. -/
theorem c7_host_check_witness :
    (["web1.example.com"] : List String) ≠ [] :=
  c7_host_check.1 (some (some ["web1.example.com"])) ["web1.example.com"]
    rfl

end Fabfile
